import Mathlib

/-!
Verification of the nested-VMX virtualization core (vvmx.c) against its
natural-language specification.  The definitions below are a shallow
embedding of the C source: machine integers are Nat with explicit masks,
guest pages are total functions from slot index to slot value, fallible
or undefined behaviour (dereferencing an absent mapping) is Option, and
externally observable actions (exception injection, VVMCS accesses,
EFLAGS status writes) are recorded in an event list.
-/

namespace VVMX

/-! ## Architectural constants (values from the x86 headers) -/

def X86_EFLAGS_CF : Nat := 0x1
def X86_EFLAGS_PF : Nat := 0x4
def X86_EFLAGS_AF : Nat := 0x10
def X86_EFLAGS_ZF : Nat := 0x40
def X86_EFLAGS_SF : Nat := 0x80
def X86_EFLAGS_OF : Nat := 0x800
def X86_EFLAGS_VM : Nat := 0x20000
def X86_CR0_PE : Nat := 0x1
def X86_CR4_VMXE : Nat := 0x2000
def TRAP_invalid_op : Nat := 6
def TRAP_gp_fault : Nat := 13
def PAGE_SHIFT : Nat := 12

/-- Sentinel for "no VVMCS address": VMCX_EADDR is ~0ULL in the headers. -/
def VMCX_EADDR : Nat := 2 ^ 64 - 1

/-- Intel encoding of the CPU-based execution-controls VMCS field. -/
def CPU_BASED_VM_EXEC_CONTROL : Nat := 0x4002
def IO_BITMAP_A : Nat := 0x2000
def IO_BITMAP_A_HIGH : Nat := 0x2001
def IO_BITMAP_B : Nat := 0x2002
def IO_BITMAP_B_HIGH : Nat := 0x2003

def CPU_BASED_TPR_SHADOW : Nat := 0x00200000
def CPU_BASED_ACTIVATE_MSR_BITMAP : Nat := 0x10000000
def CPU_BASED_ACTIVATE_SECONDARY_CONTROLS : Nat := 0x80000000
def CPU_BASED_ACTIVATE_IO_BITMAP : Nat := 0x02000000
def CPU_BASED_UNCOND_IO_EXITING : Nat := 0x01000000

/-- Modelled from the spec: the vvmx.h header defining NVMX_LAUNCH_STATE is
not under src; the spec describes it as a per-VVMCS field accessed through
the codec.  We model it as a fixed 16-bit-width encoding whose slot offset
(0x60) is disjoint from the offsets of the fields the handlers otherwise
touch (CPU-based controls at 0x101, I/O bitmaps at 0x80/0x81). -/
def NVMX_LAUNCH_STATE : Nat := 0x1f00

/-! ## VVMCS codec -/

/-- A guest page viewed as the source views a VVMCS: an array of 64-bit
slots, here a total function from slot offset to slot value. -/
def Page : Type := Nat → Nat

/-- Modelled from the spec: the header defining union vmcs_encoding is not
under src; per spec sections 3 and 6 a field encoding follows the Intel
16-bit format: bit 0 access type, bits 1-9 index, bits 10-11 type,
bits 13-14 width. -/
def enc_access_type (w : Nat) : Nat := w &&& 0x1

def enc_index (w : Nat) : Nat := (w >>> 1) &&& 0x1ff

def enc_type (w : Nat) : Nat := (w >>> 10) &&& 0x3

def enc_width (w : Nat) : Nat := (w >>> 13) &&& 0x3

/-- Modelled from the spec: width enumeration order 16, 64, 32, natural. -/
def VVMCS_WIDTH_16 : Nat := 0
def VVMCS_WIDTH_64 : Nat := 1
def VVMCS_WIDTH_32 : Nat := 2
def VVMCS_WIDTH_NATURAL : Nat := 3

/-- vvmcs_offset from vvmx.c: slot offset of a field, with the zero offset
(vpid) remapped to 0x3f. -/
def vvmcs_offset (width ty index : Nat) : Nat :=
  let offset := (index &&& 0x1f) ||| (ty <<< 5) ||| (width <<< 7)
  if offset = 0 then 0x3f else offset

/-- __get_vvmcs from vvmx.c: load the slot and mask or shift by width. -/
def __get_vvmcs (vvmcs : Page) (vmcs_encoding : Nat) : Nat :=
  let offset := vvmcs_offset (enc_width vmcs_encoding) (enc_type vmcs_encoding)
      (enc_index vmcs_encoding)
  let res := vvmcs offset
  if enc_width vmcs_encoding = VVMCS_WIDTH_16 then res &&& 0xffff
  else if enc_width vmcs_encoding = VVMCS_WIDTH_64 then
    (if enc_access_type vmcs_encoding ≠ 0 then res >>> 32 else res)
  else if enc_width vmcs_encoding = VVMCS_WIDTH_32 then res &&& 0xffffffff
  else res

/-- __set_vvmcs from vvmx.c: merge the value into the slot by width; the
val parameter is a u64 in C, hence the explicit reduction mod 2^64. -/
def __set_vvmcs (vvmcs : Page) (vmcs_encoding val : Nat) : Page :=
  let v := val % 2 ^ 64
  let offset := vvmcs_offset (enc_width vmcs_encoding) (enc_type vmcs_encoding)
      (enc_index vmcs_encoding)
  let res := vvmcs offset
  let stored :=
    if enc_width vmcs_encoding = VVMCS_WIDTH_16 then v &&& 0xffff
    else if enc_width vmcs_encoding = VVMCS_WIDTH_64 then
      (if enc_access_type vmcs_encoding ≠ 0 then
        (res &&& 0xffffffff) ||| ((v <<< 32) % 2 ^ 64)
      else v)
    else if enc_width vmcs_encoding = VVMCS_WIDTH_32 then v &&& 0xffffffff
    else v
  fun o => if o = offset then stored else vvmcs o

/-! ## Machine state and environment -/

inductive RC where
  | okay
  | exception
deriving DecidableEq

inductive VmxRes where
  | vmsucceed
  | vmfail_valid
  | vmfail_invalid
deriving DecidableEq

/-- Observable actions of a handler: architectural fault injection, reads
and writes of the guest VVMCS page through the current mapping, and the
synthetic VM-instruction status written to guest EFLAGS by vmreturn. -/
inductive Event where
  | inject (vector errcode : Nat)
  | vvmcs_read (enc : Nat)
  | vvmcs_write (enc val : Nat)
  | eflags_status (r : VmxRes)
deriving DecidableEq

structure segment_register where
  sel : Nat
  base : Nat
  limit : Nat
  attr_l : Bool

/-- Modelled from the spec: VMX_SREG indices in the order of the
sreg_to_index array in vvmx.c. -/
def VMX_SREG_ES : Nat := 0
def VMX_SREG_CS : Nat := 1
def VMX_SREG_SS : Nat := 2
def VMX_SREG_DS : Nat := 3
def VMX_SREG_FS : Nat := 4
def VMX_SREG_GS : Nat := 5

/-- Read-only inputs of a handler invocation: control-register and segment
state of the vCPU, the two hardware-VMCS fields the decoder consumes, and
oracles for the host surfaces (guest-virtual copies, guest-frame maps). -/
structure Env where
  guest_cr0 : Nat
  guest_cr4 : Nat
  long_mode : Bool
  seg : Nat → segment_register
  vmx_inst_info : Nat
  exit_qualification : Nat
  copy_from_ok : Bool
  copy_to_ok : Bool
  operand_mem : Nat
  map_rw : Nat → Option Page
  map_ro : Nat → Option Page

/-- Mutable per-vCPU nested state threaded through the handlers, together
with the guest registers the handlers read and write. -/
structure NState where
  vmxon_region_pa : Nat
  nv_vvmcx : Option Page
  nv_vvmcxaddr : Nat
  iobitmap0 : Option Page
  iobitmap1 : Option Page
  nv_vmentry_pending : Bool
  eflags : Nat
  gpr : Nat → Nat

/-- reg_read from vvmx.c: the switch covers the 16 general registers and
returns the initialised 0 for any other index. -/
def reg_read (s : NState) (index : Nat) : Nat :=
  if index < 16 then s.gpr index else 0

/-- reg_write from vvmx.c: writes one of the 16 general registers and is a
no-op for any other index. -/
def reg_write (s : NState) (index value : Nat) : NState :=
  if index < 16 then { s with gpr := fun i => if i = index then value else s.gpr i }
  else s

/-- Complement of a mask within a 64-bit word. -/
def u64not (x : Nat) : Nat := 0xffffffffffffffff ^^^ x

/-- Complement of a mask within a 32-bit word. -/
def u32not (x : Nat) : Nat := 0xffffffff ^^^ x

def EFLAGS_STATUS_MASK : Nat :=
  X86_EFLAGS_CF ||| X86_EFLAGS_PF ||| X86_EFLAGS_AF ||| X86_EFLAGS_ZF |||
  X86_EFLAGS_SF ||| X86_EFLAGS_OF

/-- vmreturn from vvmx.c, on the EFLAGS word: clear CF PF AF ZF SF OF,
then set ZF for VMfailValid or CF for VMfailInvalid. -/
def vmreturn_eflags (eflags : Nat) (r : VmxRes) : Nat :=
  let e := eflags &&& u64not EFLAGS_STATUS_MASK
  match r with
  | VmxRes.vmsucceed => e
  | VmxRes.vmfail_valid => e ||| X86_EFLAGS_ZF
  | VmxRes.vmfail_invalid => e ||| X86_EFLAGS_CF

/-- vmreturn from vvmx.c: update guest EFLAGS and record the status. -/
def vmreturn (s : NState) (r : VmxRes) : NState × List Event :=
  ({ s with eflags := vmreturn_eflags s.eflags r }, [Event.eflags_status r])

/-! ## Privilege gate -/

/-- vmx_inst_check_privilege from vvmx.c.  State is never modified; the
result is the emulation return code plus the injection events. -/
def vmx_inst_check_privilege (env : Env) (s : NState) (vmxop_check : Bool) :
    RC × List Event :=
  let cs := env.seg VMX_SREG_CS
  if (if vmxop_check then
        env.guest_cr0 &&& X86_CR0_PE = 0 ∨ env.guest_cr4 &&& X86_CR4_VMXE = 0
      else s.vmxon_region_pa = 0) then
    (RC.exception, [Event.inject TRAP_invalid_op 0])
  else if s.eflags &&& X86_EFLAGS_VM ≠ 0 ∨ (env.long_mode ∧ cs.attr_l = false) then
    (RC.exception, [Event.inject TRAP_invalid_op 0])
  else if cs.sel &&& 3 > 0 then
    (RC.exception, [Event.inject TRAP_gp_fault 0])
  else
    (RC.okay, [])

/-! ## Instruction decoder -/

def VMX_INST_MEMREG_TYPE_MEMORY : Nat := 0
def VMX_INST_MEMREG_TYPE_REG : Nat := 1

/-- Modelled from the spec: the header defining union vmx_inst_info is not
under src; per spec section 4.2 the word follows the Intel SDM
VM-instruction-information layout: bits 0-1 scaling, bits 3-6 reg1,
bits 7-9 addr size, bit 10 memreg, bits 15-17 segment, bits 18-21 index
register, bit 22 index invalid, bits 23-26 base register, bit 27 base
invalid, bits 28-31 reg2. -/
def info_scaling (w : Nat) : Nat := w &&& 0x3

def info_reg1 (w : Nat) : Nat := (w >>> 3) &&& 0xf

def info_addr_size (w : Nat) : Nat := (w >>> 7) &&& 0x7

def info_memreg (w : Nat) : Nat := (w >>> 10) &&& 0x1

def info_segment (w : Nat) : Nat := (w >>> 15) &&& 0x7

def info_index_reg (w : Nat) : Nat := (w >>> 18) &&& 0xf

def info_index_reg_invalid (w : Nat) : Nat := (w >>> 22) &&& 0x1

def info_base_reg (w : Nat) : Nat := (w >>> 23) &&& 0xf

def info_base_reg_invalid (w : Nat) : Nat := (w >>> 27) &&& 0x1

def info_reg2 (w : Nat) : Nat := (w >>> 28) &&& 0xf

structure vmx_inst_decoded where
  dtype : Nat
  reg1 : Nat
  mem : Nat
  len : Nat
  reg2 : Nat
deriving DecidableEq

def default_decoded : vmx_inst_decoded :=
  { dtype := 0, reg1 := 0, mem := 0, len := 0, reg2 := 0 }

/-- decode_vmx_inst from vvmx.c.  want_operand mirrors a non-NULL
poperandS; the operand component is the value the C code stores through
poperandS (callers initialise it to 0, hence the 0 on paths that do not
write it).  A memory-form fetch delivers the low len bytes of the guest
word read by hvm_copy_from_guest_virt. -/
def decode_vmx_inst (env : Env) (s : NState) (want_operand vmxon_check : Bool) :
    RC × vmx_inst_decoded × Nat × List Event :=
  match vmx_inst_check_privilege env s vmxon_check with
  | (RC.exception, evs) => (RC.exception, default_decoded, 0, evs)
  | (RC.okay, _) =>
    let info := env.vmx_inst_info
    if info_memreg info ≠ 0 then
      let r1 := info_reg1 info
      let operand := if want_operand then reg_read s r1 else 0
      (RC.okay,
       { dtype := VMX_INST_MEMREG_TYPE_REG, reg1 := r1, mem := 0, len := 0,
         reg2 := info_reg2 info },
       operand, [])
    else if info_segment info > 5 then
      (RC.exception, default_decoded, 0, [Event.inject TRAP_gp_fault 0])
    else
      let seg := env.seg (info_segment info)
      let base := if info_base_reg_invalid info ≠ 0 then 0
        else reg_read s (info_base_reg info)
      let index := if info_index_reg_invalid info ≠ 0 then 0
        else reg_read s (info_index_reg info)
      let scale := 1 <<< info_scaling info
      let disp := env.exit_qualification
      let size := 1 <<< (info_addr_size info + 1)
      let offset := (base + index * scale + disp) % 2 ^ 64
      if (offset > seg.limit ∨ (offset + size) % 2 ^ 64 > seg.limit) ∧
         (env.long_mode = false ∨ info_segment info = VMX_SREG_GS) then
        (RC.exception, default_decoded, 0, [Event.inject TRAP_gp_fault 0])
      else if want_operand ∧ env.copy_from_ok = false then
        (RC.exception, default_decoded, 0, [])
      else
        let fetched := if size ≥ 8 then env.operand_mem % 2 ^ 64
          else env.operand_mem % 2 ^ (8 * size)
        (RC.okay,
         { dtype := VMX_INST_MEMREG_TYPE_MEMORY, reg1 := 0,
           mem := (seg.base + offset) % 2 ^ 64, len := size,
           reg2 := info_reg2 info },
         (if want_operand then fetched else 0), [])

/-! ## VVMCS lifecycle manager -/

/-- Access through the current VVMCS mapping, as at the call sites that
pass nvcpu->nv_vvmcx to __get_vvmcs: none models the C code dereferencing
an absent (NULL) mapping. -/
def deref_vvmcs_read (m : Option Page) (enc : Nat) : Option Nat :=
  match m with
  | none => none
  | some p => some (__get_vvmcs p enc)

/-- Write through the current VVMCS mapping, as at the call sites that
pass nvcpu->nv_vvmcx to __set_vvmcs: none models the C code dereferencing
an absent (NULL) mapping. -/
def deref_vvmcs_write (s : NState) (enc val : Nat) : Option (NState × List Event) :=
  match s.nv_vvmcx with
  | none => none
  | some p =>
    some ({ s with nv_vvmcx := some (__set_vvmcs p enc val) },
          [Event.vvmcs_write enc val])

/-- __n2_exec_control from vvmx.c: u32 read of the CPU-based controls
field of the current VVMCS. -/
def __n2_exec_control (s : NState) : Option Nat :=
  (s.nv_vvmcx).map (fun p => __get_vvmcs p CPU_BASED_VM_EXEC_CONTROL &&& 0xffffffff)

/-- __map_io_bitmap from vvmx.c: read the bitmap GPA out of the current
VVMCS and establish a read-only mapping of that frame (releasing any
previous mapping has no modelled effect beyond replacement). -/
def __map_io_bitmap (env : Env) (s : NState) (vmcs_reg : Nat) :
    Option (NState × List Event) :=
  match s.nv_vvmcx with
  | none => none
  | some p =>
    let gpa := __get_vvmcs p vmcs_reg
    let bm := env.map_ro (gpa >>> PAGE_SHIFT)
    let s' := if vmcs_reg = IO_BITMAP_A then { s with iobitmap0 := bm }
      else { s with iobitmap1 := bm }
    some (s', [Event.vvmcs_read vmcs_reg])

/-- map_io_bitmap_all from vvmx.c. -/
def map_io_bitmap_all (env : Env) (s : NState) : Option (NState × List Event) :=
  match __map_io_bitmap env s IO_BITMAP_A with
  | none => none
  | some (s1, evs1) =>
    match __map_io_bitmap env s1 IO_BITMAP_B with
    | none => none
    | some (s2, evs2) => some (s2, evs1 ++ evs2)

/-- nvmx_purge_vvmcs from vvmx.c.  __clear_current_vvmcs acts only on the
hardware VMCS, outside this model.  The source statement
nvcpu->nv_vvmcx == NULL is a comparison, not an assignment, so nv_vvmcx
is faithfully left unchanged here; only the address is reset and the two
I/O-bitmap mappings are released. -/
def nvmx_purge_vvmcs (s : NState) : NState :=
  { s with nv_vvmcxaddr := VMCX_EADDR, iobitmap0 := none, iobitmap1 := none }

/-! ## VMX instruction handlers -/

/-- nvmx_handle_vmxon from vvmx.c.  The snapshot of the host VMCS into
nv_n2vmcx acts on hardware state outside this model. -/
def nvmx_handle_vmxon (env : Env) (s : NState) : Option (RC × NState × List Event) :=
  match decode_vmx_inst env s true true with
  | (RC.exception, _, _, evs) => some (RC.exception, s, evs)
  | (RC.okay, _, gpa, evs) =>
    let s1 := { s with vmxon_region_pa := gpa }
    let (s2, evs2) := vmreturn s1 VmxRes.vmsucceed
    some (RC.okay, s2, evs ++ evs2)

/-- nvmx_handle_vmxoff from vvmx.c. -/
def nvmx_handle_vmxoff (env : Env) (s : NState) : Option (RC × NState × List Event) :=
  match vmx_inst_check_privilege env s false with
  | (RC.exception, evs) => some (RC.exception, s, evs)
  | (RC.okay, _) =>
    let s1 := nvmx_purge_vvmcs s
    let s2 := { s1 with vmxon_region_pa := 0 }
    let (s3, evs3) := vmreturn s2 VmxRes.vmsucceed
    some (RC.okay, s3, evs3)

/-- nvmx_handle_vmptrld from vvmx.c. -/
def nvmx_handle_vmptrld (env : Env) (s : NState) : Option (RC × NState × List Event) :=
  match decode_vmx_inst env s true false with
  | (RC.exception, _, _, evs) => some (RC.exception, s, evs)
  | (RC.okay, _, gpa, evs) =>
    if gpa = s.vmxon_region_pa ∨ gpa &&& 0xfff ≠ 0 then
      let (s', evs') := vmreturn s VmxRes.vmfail_invalid
      some (RC.okay, s', evs ++ evs')
    else
      let s1 := if s.nv_vvmcxaddr ≠ gpa then nvmx_purge_vvmcs s else s
      if s1.nv_vvmcxaddr = VMCX_EADDR then
        let s2 := { s1 with nv_vvmcx := env.map_rw (gpa >>> PAGE_SHIFT),
                            nv_vvmcxaddr := gpa }
        match map_io_bitmap_all env s2 with
        | none => none
        | some (s3, evs3) =>
          let (s4, evs4) := vmreturn s3 VmxRes.vmsucceed
          some (RC.okay, s4, evs ++ evs3 ++ evs4)
      else
        let (s2, evs2) := vmreturn s1 VmxRes.vmsucceed
        some (RC.okay, s2, evs ++ evs2)

/-- nvmx_handle_vmptrst from vvmx.c: the current VVMCS address (possibly
the sentinel) is copied to the decoded guest-virtual destination. -/
def nvmx_handle_vmptrst (env : Env) (s : NState) : Option (RC × NState × List Event) :=
  match decode_vmx_inst env s true false with
  | (RC.exception, _, _, evs) => some (RC.exception, s, evs)
  | (RC.okay, _, _, evs) =>
    if env.copy_to_ok = false then some (RC.exception, s, evs)
    else
      let (s', evs') := vmreturn s VmxRes.vmsucceed
      some (RC.okay, s', evs ++ evs')

/-- nvmx_handle_vmclear from vvmx.c. -/
def nvmx_handle_vmclear (env : Env) (s : NState) : Option (RC × NState × List Event) :=
  match decode_vmx_inst env s true false with
  | (RC.exception, _, _, evs) => some (RC.exception, s, evs)
  | (RC.okay, _, gpa, evs) =>
    if gpa &&& 0xfff ≠ 0 then
      let (s', evs') := vmreturn s VmxRes.vmfail_invalid
      some (RC.okay, s', evs ++ evs')
    else if gpa ≠ s.nv_vvmcxaddr ∧ s.nv_vvmcxaddr ≠ VMCX_EADDR then
      let (s', evs') := vmreturn s VmxRes.vmsucceed
      some (RC.okay, s', evs ++ evs')
    else
      let step :=
        if s.nv_vvmcxaddr ≠ VMCX_EADDR then
          deref_vvmcs_write s NVMX_LAUNCH_STATE 0
        else some (s, [])
      match step with
      | none => none
      | some (s1, evs1) =>
        let s2 := nvmx_purge_vvmcs s1
        let (s3, evs3) := vmreturn s2 VmxRes.vmsucceed
        some (RC.okay, s3, evs ++ evs1 ++ evs3)

/-- nvmx_handle_vmread from vvmx.c: the encoding is the u32 value of the
register named by reg2; the field is read through the current mapping
with no check that one exists. -/
def nvmx_handle_vmread (env : Env) (s : NState) : Option (RC × NState × List Event) :=
  match decode_vmx_inst env s false false with
  | (RC.exception, _, _, evs) => some (RC.exception, s, evs)
  | (RC.okay, dec, _, evs) =>
    let enc := reg_read s dec.reg2 &&& 0xffffffff
    match deref_vvmcs_read s.nv_vvmcx enc with
    | none => none
    | some value =>
      let evs1 := evs ++ [Event.vvmcs_read enc]
      if dec.dtype = VMX_INST_MEMREG_TYPE_MEMORY then
        if env.copy_to_ok = false then some (RC.exception, s, evs1)
        else
          let (s', evs') := vmreturn s VmxRes.vmsucceed
          some (RC.okay, s', evs1 ++ evs')
      else
        let s1 := reg_write s dec.reg1 value
        let (s', evs') := vmreturn s1 VmxRes.vmsucceed
        some (RC.okay, s', evs1 ++ evs')

/-- nvmx_handle_vmwrite from vvmx.c: the operand is written at the
encoding held in reg2, through the current mapping with no check that one
exists; writes to the I/O-bitmap fields re-map the affected bitmap. -/
def nvmx_handle_vmwrite (env : Env) (s : NState) : Option (RC × NState × List Event) :=
  match decode_vmx_inst env s true false with
  | (RC.exception, _, _, evs) => some (RC.exception, s, evs)
  | (RC.okay, dec, operand, evs) =>
    let vmcs_encoding := reg_read s dec.reg2
    match deref_vvmcs_write s (vmcs_encoding &&& 0xffffffff) operand with
    | none => none
    | some (s1, evs1) =>
      let step :=
        if vmcs_encoding = IO_BITMAP_A ∨ vmcs_encoding = IO_BITMAP_A_HIGH then
          __map_io_bitmap env s1 IO_BITMAP_A
        else if vmcs_encoding = IO_BITMAP_B ∨ vmcs_encoding = IO_BITMAP_B_HIGH then
          __map_io_bitmap env s1 IO_BITMAP_B
        else some (s1, [])
      match step with
      | none => none
      | some (s2, evs2) =>
        let (s3, evs3) := vmreturn s2 VmxRes.vmsucceed
        some (RC.okay, s3, evs ++ evs1 ++ evs2 ++ evs3)

/-- nvmx_vmresume from vvmx.c: after the gate, either flag a pending
nested entry (when a VVMCS is loaded and the I/O-bitmap requirement is
satisfied) or report VMfailInvalid; both paths return OKAY.  The
condition is evaluated with C short-circuiting: the controls field is
read only when a bitmap mapping is missing. -/
def nvmx_vmresume (env : Env) (s : NState) : Option (RC × NState × List Event) :=
  match vmx_inst_check_privilege env s false with
  | (RC.exception, evs) => some (RC.exception, s, evs)
  | (RC.okay, _) =>
    if s.nv_vvmcxaddr ≠ VMCX_EADDR then
      if s.iobitmap0.isSome ∧ s.iobitmap1.isSome then
        some (RC.okay, { s with nv_vmentry_pending := true }, [])
      else
        match __n2_exec_control s with
        | none => none
        | some ctl =>
          let evs := [Event.vvmcs_read CPU_BASED_VM_EXEC_CONTROL]
          if ctl &&& CPU_BASED_ACTIVATE_IO_BITMAP = 0 then
            some (RC.okay, { s with nv_vmentry_pending := true }, evs)
          else
            let (s', evs') := vmreturn s VmxRes.vmfail_invalid
            some (RC.okay, s', evs ++ evs')
    else
      let (s', evs') := vmreturn s VmxRes.vmfail_invalid
      some (RC.okay, s', evs')

/-- nvmx_handle_vmresume from vvmx.c: LAUNCH_STATE is read through the
current mapping before anything else, the privilege gate included. -/
def nvmx_handle_vmresume (env : Env) (s : NState) : Option (RC × NState × List Event) :=
  match deref_vvmcs_read s.nv_vvmcx NVMX_LAUNCH_STATE with
  | none => none
  | some launched =>
    let evs0 := [Event.vvmcs_read NVMX_LAUNCH_STATE]
    if launched = 0 then
      let (s', evs') := vmreturn s VmxRes.vmfail_valid
      some (RC.exception, s', evs0 ++ evs')
    else
      match nvmx_vmresume env s with
      | none => none
      | some (rc, s', evs') => some (rc, s', evs0 ++ evs')

/-- nvmx_handle_vmlaunch from vvmx.c: LAUNCH_STATE is read first; when
nvmx_vmresume returns OKAY (which it also does on its VMfailInvalid
path), LAUNCH_STATE is set to 1. -/
def nvmx_handle_vmlaunch (env : Env) (s : NState) : Option (RC × NState × List Event) :=
  match deref_vvmcs_read s.nv_vvmcx NVMX_LAUNCH_STATE with
  | none => none
  | some launched =>
    let evs0 := [Event.vvmcs_read NVMX_LAUNCH_STATE]
    if launched ≠ 0 then
      let (s', evs') := vmreturn s VmxRes.vmfail_valid
      some (RC.exception, s', evs0 ++ evs')
    else
      match nvmx_vmresume env s with
      | none => none
      | some (rc, s1, evs1) =>
        if rc = RC.okay then
          match deref_vvmcs_write s1 NVMX_LAUNCH_STATE 1 with
          | none => none
          | some (s2, evs2) => some (rc, s2, evs0 ++ evs1 ++ evs2)
        else some (rc, s1, evs0 ++ evs1)

/-! ## Composite execution-control computation -/

/-- Selection of the hardware I/O bitmap programmed for the nested entry:
keep means the IO_BITMAP fields are not written, host_default is the
host bitmap hvm_io_bitmap, shadow_bm carries the two intercept bits fed
to nestedhvm_vcpu_iomap_get. -/
inductive IOSel where
  | keep
  | host_default
  | shadow_bm (port80 portED : Nat)
deriving DecidableEq

/-- _shadow_io_bitmap from vvmx.c: inspect the intercept bits for ports
0x80 and 0xed in the first guest I/O bitmap; the C code dereferences
iobitmap[0] unconditionally. -/
def _shadow_io_bitmap (s : NState) : Option (Nat × Nat) :=
  match s.iobitmap0 with
  | none => none
  | some bitmap =>
    let port80 := if bitmap (0x80 >>> 3) &&& (1 <<< (0x80 &&& 0x7)) ≠ 0 then 1 else 0
    let portED := if bitmap (0xed >>> 3) &&& (1 <<< (0xed &&& 0x7)) ≠ 0 then 1 else 0
    some (port80, portED)

/-- nvmx_update_exec_control from vvmx.c: the produced hardware
CPU_BASED_VM_EXEC_CONTROL word and the I/O-bitmap selection. -/
def nvmx_update_exec_control (s : NState) (host_cntrl : Nat) :
    Option (Nat × IOSel) :=
  match __n2_exec_control s with
  | none => none
  | some shadow_cntrl0 =>
    let host := host_cntrl &&& 0xffffffff
    let pio_cntrl := (CPU_BASED_ACTIVATE_IO_BITMAP ||| CPU_BASED_UNCOND_IO_EXITING)
        &&& shadow_cntrl0
    let shadow_cntrl1 := shadow_cntrl0 &&&
        u32not (CPU_BASED_TPR_SHADOW ||| CPU_BASED_ACTIVATE_MSR_BITMAP |||
                CPU_BASED_ACTIVATE_SECONDARY_CONTROLS |||
                CPU_BASED_ACTIVATE_IO_BITMAP ||| CPU_BASED_UNCOND_IO_EXITING)
    let shadow_cntrl2 := shadow_cntrl1 ||| host
    if pio_cntrl = CPU_BASED_UNCOND_IO_EXITING then
      some ((shadow_cntrl2 ||| CPU_BASED_UNCOND_IO_EXITING) &&&
              u32not CPU_BASED_ACTIVATE_IO_BITMAP,
            IOSel.keep)
    else if pio_cntrl = 0 then
      some (shadow_cntrl2, IOSel.host_default)
    else
      match _shadow_io_bitmap s with
      | none => none
      | some (p80, pED) => some (shadow_cntrl2, IOSel.shadow_bm p80 pED)

/-! ## Concrete fixtures used by the witnesses and counterexamples -/

/-- Flat ring-0 code segment: CPL 0, 64-bit, generous limit. -/
def seg_ok : segment_register :=
  { sel := 0, base := 0, limit := 0xffffffff, attr_l := true }

/-- Ring-3 code segment: the RPL bits of the selector are 3. -/
def seg_cpl3 : segment_register :=
  { sel := 3, base := 0, limit := 0xffffffff, attr_l := true }

/-- The all-zero guest page. -/
def page0 : Page := fun _ => 0

/-- Benign environment: protected mode with VMXE, not long mode, CPL 0,
register-form operand (reg1 = reg2 = RAX), all host surfaces succeeding. -/
def env0 : Env :=
  { guest_cr0 := 0x1, guest_cr4 := 0x2000, long_mode := false,
    seg := fun _ => seg_ok,
    vmx_inst_info := 0x400, exit_qualification := 0,
    copy_from_ok := true, copy_to_ok := true, operand_mem := 0,
    map_rw := fun _ => some page0, map_ro := fun _ => some page0 }

/-- Same environment with the guest running at CPL 3. -/
def env_cpl3 : Env := { env0 with seg := fun _ => seg_cpl3 }

/-- State after VMXON but before any VMPTRLD: no VVMCS mapping, address
sentinel, no bitmap mappings. -/
def s_novvmcs : NState :=
  { vmxon_region_pa := 0x1000, nv_vvmcx := none, nv_vvmcxaddr := VMCX_EADDR,
    iobitmap0 := none, iobitmap1 := none, nv_vmentry_pending := false,
    eflags := 0x2, gpr := fun _ => 0 }

/-- State with a freshly loaded all-zero VVMCS at GPA 0x2000 (so its
LAUNCH_STATE is 0) and both I/O bitmaps mapped. -/
def s_loaded : NState :=
  { s_novvmcs with nv_vvmcx := some page0, nv_vvmcxaddr := 0x2000,
                   iobitmap0 := some page0, iobitmap1 := some page0 }

/-! ## Claim theorems -/

/-- C1: the claim says the VMX handlers never read or write through an
absent VVMCS mapping and cannot crash the host.  The code contradicts it:
with no VVMCS loaded (nv_vvmcx NULL, address sentinel) and the privilege
gate satisfied, VMREAD, VMWRITE, VMRESUME and VMLAUNCH all pass the NULL
mapping to the codec, which dereferences it; the embedding reports this
undefined behaviour as none. -/
theorem vmx_handlers_touch_absent_vvmcs :
    nvmx_handle_vmread env0 s_novvmcs = none ∧
    nvmx_handle_vmwrite env0 s_novvmcs = none ∧
    nvmx_handle_vmresume env0 s_novvmcs = none ∧
    nvmx_handle_vmlaunch env0 s_novvmcs = none :=
  ⟨rfl, rfl, rfl, rfl⟩

/-- C2: the claim says the purge path makes the mapping absent whenever it
sets the address to the INVALID sentinel.  The code's purge contains a
comparison where an assignment was intended, so after VMXOFF from a loaded
state the address is the sentinel while the stale mapping is still
present, and both bitmap mappings are released. -/
theorem purge_leaves_stale_vvmcx_map :
    (nvmx_handle_vmxoff env0 s_loaded).map
      (fun r => (r.1, r.2.1.nv_vvmcxaddr, r.2.1.nv_vvmcx.isSome,
                 r.2.1.iobitmap0.isSome, r.2.1.vmxon_region_pa)) =
    some (RC.okay, VMCX_EADDR, true, false, 0) :=
  rfl

/-- VVMCS page whose CPU-based controls field requests I/O-bitmap
exiting; every other slot is zero. -/
def page_ctl : Page :=
  __set_vvmcs page0 CPU_BASED_VM_EXEC_CONTROL CPU_BASED_ACTIVATE_IO_BITMAP

/-- Loaded state with I/O-bitmap exiting requested but the second bitmap
not mapped: VMLAUNCH takes the VMfailInvalid branch here. -/
def s_c4 : NState := { s_loaded with nv_vvmcx := some page_ctl, iobitmap1 := none }

/-- Pre-VMXON state whose RAX holds a non-4KiB-aligned GPA. -/
def s_unaligned : NState :=
  { s_novvmcs with vmxon_region_pa := 0,
                   gpr := fun i => if i = 0 then 0x12345001 else 0 }

/-- C4: the claim says the VMfailInvalid branch of VMLAUNCH leaves
LAUNCH_STATE at 0.  The code contradicts it: nvmx_vmresume returns OKAY
on its VMfailInvalid path as well, so nvmx_handle_vmlaunch then sets
LAUNCH_STATE to 1.  At a loaded VVMCS requesting I/O-bitmap exiting with
one bitmap unmapped, the handler reports VMfailInvalid (CF set), leaves
vm_entry_pending unset, and still writes LAUNCH_STATE = 1. -/
theorem vmfail_invalid_sets_launch_state :
    (nvmx_handle_vmlaunch env0 s_c4).map
      (fun r => (r.1, r.2.1.eflags &&& X86_EFLAGS_CF, r.2.1.nv_vmentry_pending,
                 (r.2.1.nv_vvmcx).map (fun p => __get_vvmcs p NVMX_LAUNCH_STATE),
                 r.2.2)) =
    some (RC.okay, X86_EFLAGS_CF, false, some 1,
          [Event.vvmcs_read NVMX_LAUNCH_STATE,
           Event.vvmcs_read CPU_BASED_VM_EXEC_CONTROL,
           Event.eflags_status VmxRes.vmfail_invalid,
           Event.vvmcs_write NVMX_LAUNCH_STATE 1]) :=
  rfl

/-- C3 counterexample: after the VMfailValid VMRESUME, the claim says the
following VMLAUNCH returns VMsucceed, whose EFLAGS convention clears ZF.
The code's success path never writes a status: the VMLAUNCH that pends
the entry and sets LAUNCH_STATE emits no eflags_status event and leaves
ZF set from the preceding failure, so it does not return VMsucceed. -/
theorem vmlaunch_success_leaves_zf :
    ((nvmx_handle_vmresume env0 s_loaded).bind (fun r1 =>
      (nvmx_handle_vmlaunch env0 r1.2.1).map (fun r2 =>
        (r1.1, r1.2.1.eflags &&& X86_EFLAGS_ZF,
         r2.1, r2.2.1.eflags &&& X86_EFLAGS_ZF, r2.2.1.nv_vmentry_pending,
         (r2.2.1.nv_vvmcx).map (fun p => __get_vvmcs p NVMX_LAUNCH_STATE),
         r2.2.2)))) =
    some (RC.exception, X86_EFLAGS_ZF,
          RC.okay, X86_EFLAGS_ZF, true, some 1,
          [Event.vvmcs_read NVMX_LAUNCH_STATE,
           Event.vvmcs_write NVMX_LAUNCH_STATE 1]) :=
  rfl

/-- C5 counterexample: at CPL 3 (the gate would reject with a general
protection fault) with a loaded VVMCS whose LAUNCH_STATE is 0, VMRESUME
reads LAUNCH_STATE from the VVMCS and writes the VMfailValid status to
EFLAGS, and injects no fault: the privilege gate did not run first. -/
theorem vmresume_reads_vvmcs_before_gate :
    (nvmx_handle_vmresume env_cpl3 s_loaded).map (fun r => (r.1, r.2.2)) =
    some (RC.exception,
          [Event.vvmcs_read NVMX_LAUNCH_STATE,
           Event.eflags_status VmxRes.vmfail_valid]) :=
  rfl

/-- C8 counterexample: the claim says VMXON rejects a decoded GPA whose
low 12 bits are nonzero rather than recording it.  The code has no
alignment check: with operand GPA 0x12345001 the handler records it in
vmxon_region_pa and completes with VMsucceed (CF and ZF both clear). -/
theorem vmxon_accepts_unaligned_gpa :
    (nvmx_handle_vmxon env0 s_unaligned).map
      (fun r => (r.1, r.2.1.vmxon_region_pa,
                 r.2.1.eflags &&& (X86_EFLAGS_CF ||| X86_EFLAGS_ZF), r.2.2)) =
    some (RC.okay, 0x12345001, 0, [Event.eflags_status VmxRes.vmsucceed]) :=
  rfl

/-- Helper: the privilege gate passes for a non-VMXON instruction when
VMXON is active, EFLAGS.VM is clear, the long-mode CS.L requirement holds
and CPL is 0. -/
theorem check_privilege_ok (env : Env) (s : NState)
    (h1 : s.vmxon_region_pa ≠ 0)
    (h2 : s.eflags &&& X86_EFLAGS_VM = 0)
    (h3 : ¬(env.long_mode = true ∧ (env.seg VMX_SREG_CS).attr_l = false))
    (h4 : (env.seg VMX_SREG_CS).sel &&& 3 = 0) :
    vmx_inst_check_privilege env s false = (RC.okay, []) := by
  simp only [vmx_inst_check_privilege]
  split_ifs with ha hb hc <;> simp_all

/-- Helper: the privilege gate passes for VMXON when CR0.PE and CR4.VMXE
are set, EFLAGS.VM is clear, the long-mode CS.L requirement holds and CPL
is 0. -/
theorem check_privilege_ok_vmxon (env : Env) (s : NState)
    (h0 : env.guest_cr0 &&& X86_CR0_PE ≠ 0)
    (h1 : env.guest_cr4 &&& X86_CR4_VMXE ≠ 0)
    (h2 : s.eflags &&& X86_EFLAGS_VM = 0)
    (h3 : ¬(env.long_mode = true ∧ (env.seg VMX_SREG_CS).attr_l = false))
    (h4 : (env.seg VMX_SREG_CS).sel &&& 3 = 0) :
    vmx_inst_check_privilege env s true = (RC.okay, []) := by
  simp only [vmx_inst_check_privilege]
  split_ifs with ha hb hc <;> simp_all

/-- C7: exhaustive behaviour of the privilege gate.  With the VMXON
flavour, a clear CR0.PE or CR4.VMXE injects an invalid-opcode fault
(vector 6, error code 0); with the other flavour an inactive VMXON region
does; in either flavour virtual-8086 mode or a long-mode non-64-bit CS
injects the invalid-opcode fault; with those checks passing, nonzero CS
RPL bits inject a general-protection fault (vector 13, error code 0);
with everything satisfied the gate returns OKAY and injects nothing. -/
theorem check_privilege_cases (env : Env) (s : NState) (flavour : Bool) :
    (flavour = true →
       env.guest_cr0 &&& X86_CR0_PE = 0 ∨ env.guest_cr4 &&& X86_CR4_VMXE = 0 →
       vmx_inst_check_privilege env s flavour =
         (RC.exception, [Event.inject TRAP_invalid_op 0])) ∧
    (flavour = false → s.vmxon_region_pa = 0 →
       vmx_inst_check_privilege env s flavour =
         (RC.exception, [Event.inject TRAP_invalid_op 0])) ∧
    (s.eflags &&& X86_EFLAGS_VM ≠ 0 ∨
       (env.long_mode = true ∧ (env.seg VMX_SREG_CS).attr_l = false) →
       vmx_inst_check_privilege env s flavour =
         (RC.exception, [Event.inject TRAP_invalid_op 0])) ∧
    ((flavour = true →
        env.guest_cr0 &&& X86_CR0_PE ≠ 0 ∧ env.guest_cr4 &&& X86_CR4_VMXE ≠ 0) →
     (flavour = false → s.vmxon_region_pa ≠ 0) →
     s.eflags &&& X86_EFLAGS_VM = 0 →
     ¬(env.long_mode = true ∧ (env.seg VMX_SREG_CS).attr_l = false) →
     ((env.seg VMX_SREG_CS).sel &&& 3 ≠ 0 →
        vmx_inst_check_privilege env s flavour =
          (RC.exception, [Event.inject TRAP_gp_fault 0])) ∧
     ((env.seg VMX_SREG_CS).sel &&& 3 = 0 →
        vmx_inst_check_privilege env s flavour = (RC.okay, []))) := by
  refine ⟨?_, ?_, ?_, ?_⟩
  · rintro rfl hc
    simp only [vmx_inst_check_privilege]
    split_ifs with ha hb hc2 <;> simp_all
  · rintro rfl hc
    simp only [vmx_inst_check_privilege]
    split_ifs with ha hb hc2 <;> simp_all
  · intro hc
    simp only [vmx_inst_check_privilege]
    split_ifs with ha hb hc2 <;> simp_all
  · intro ha hb hvm hl
    have hC1 : ¬(if flavour = true then
          env.guest_cr0 &&& X86_CR0_PE = 0 ∨ env.guest_cr4 &&& X86_CR4_VMXE = 0
        else s.vmxon_region_pa = 0) := by
      cases flavour
      · simpa using hb rfl
      · have hcr := ha rfl
        intro h
        rw [if_pos rfl] at h
        exact h.elim hcr.1 hcr.2
    have hC2 : ¬(s.eflags &&& X86_EFLAGS_VM ≠ 0 ∨
        (env.long_mode = true ∧ (env.seg VMX_SREG_CS).attr_l = false)) := by
      intro h
      exact h.elim (fun hh => hh hvm) hl
    constructor
    · intro hcpl
      simp only [vmx_inst_check_privilege]
      rw [if_neg hC1, if_neg hC2, if_pos (Nat.pos_of_ne_zero hcpl)]
    · intro hcpl
      simp only [vmx_inst_check_privilege]
      rw [if_neg hC1, if_neg hC2,
          if_neg (by omega : ¬(env.seg VMX_SREG_CS).sel &&& 3 > 0)]

/-- Witness for C7: each clause discharged at a concrete guest state.
The five inputs exercise, in order: VMXON with CR4.VMXE clear, a
non-VMXON instruction with VMXON inactive, virtual-8086 mode, CPL 3, and
a fully satisfied gate. -/
theorem check_privilege_cases_witness :
    vmx_inst_check_privilege { env0 with guest_cr4 := 0 } s_novvmcs true =
      (RC.exception, [Event.inject TRAP_invalid_op 0]) ∧
    vmx_inst_check_privilege env0 { s_novvmcs with vmxon_region_pa := 0 } false =
      (RC.exception, [Event.inject TRAP_invalid_op 0]) ∧
    vmx_inst_check_privilege env0 { s_novvmcs with eflags := 0x20002 } false =
      (RC.exception, [Event.inject TRAP_invalid_op 0]) ∧
    vmx_inst_check_privilege env_cpl3 s_novvmcs false =
      (RC.exception, [Event.inject TRAP_gp_fault 0]) ∧
    vmx_inst_check_privilege env0 s_novvmcs false = (RC.okay, []) := by
  refine ⟨?_, ?_, ?_, ?_, ?_⟩
  · exact (check_privilege_cases { env0 with guest_cr4 := 0 } s_novvmcs true).1
      rfl (Or.inr (by decide))
  · exact (check_privilege_cases env0 { s_novvmcs with vmxon_region_pa := 0 }
      false).2.1 rfl rfl
  · exact (check_privilege_cases env0 { s_novvmcs with eflags := 0x20002 }
      false).2.2.1 (Or.inl (by decide))
  · exact ((check_privilege_cases env_cpl3 s_novvmcs false).2.2.2
      (by intro h; exact absurd h (by decide)) (by intro h; decide)
      (by decide) (by decide)).1 (by decide)
  · exact ((check_privilege_cases env0 s_novvmcs false).2.2.2
      (by intro h; exact absurd h (by decide)) (by intro h; decide)
      (by decide) (by decide)).2 (by decide)

/-- Helper: storing a value shifted into the high half of a 64-bit slot
and reading the high half back recovers the value's low 32 bits,
independently of the low half merged from the old slot contents. -/
theorem high_half_roundtrip (old v : Nat) :
    ((old &&& 0xffffffff) ||| ((v <<< 32) % 2 ^ 64)) >>> 32 = v &&& 0xffffffff := by
  apply Nat.eq_of_testBit_eq
  intro i
  have h32 : (0xffffffff : Nat) = 2 ^ 32 - 1 := by norm_num
  simp only [Nat.testBit_shiftRight, Nat.testBit_or, Nat.testBit_and,
    Nat.testBit_mod_two_pow, Nat.testBit_shiftLeft, h32,
    Nat.testBit_two_pow_sub_one]
  by_cases hi : i < 32
  · have e1 : ¬(32 + i < 32) := by omega
    have e2 : 32 + i < 64 := by omega
    have e3 : 32 ≤ 32 + i := by omega
    have e4 : 32 + i - 32 = i := by omega
    simp [e1, e2, e3, e4, hi]
  · have e1 : ¬(32 + i < 64) := by omega
    have e2 : ¬(32 + i < 32) := by omega
    simp [e1, e2, hi]

/-- C6: codec round trip.  Writing then reading the same 16-bit encoding
returns the value masked by the encoding's width: to 16 bits for a 16-bit
field, to 32 bits for a 32-bit field and for the high half of a 64-bit
field, and unchanged for the 64-bit low half and natural width. -/
theorem vvmcs_write_read_roundtrip (e v : Nat) (page : Page)
    (he : e < 2 ^ 16) (hv : v < 2 ^ 64) :
    __get_vvmcs (__set_vvmcs page e v) e =
      (if enc_width e = VVMCS_WIDTH_16 then v &&& 0xffff
       else if enc_width e = VVMCS_WIDTH_64 then
         (if enc_access_type e ≠ 0 then v &&& 0xffffffff else v)
       else if enc_width e = VVMCS_WIDTH_32 then v &&& 0xffffffff
       else v) := by
  have hmod : v % 2 ^ 64 = v := Nat.mod_eq_of_lt hv
  have hw : enc_width e = 0 ∨ enc_width e = 1 ∨ enc_width e = 2 ∨ enc_width e = 3 := by
    have hle : enc_width e ≤ 3 := Nat.and_le_right
    omega
  simp only [__get_vvmcs, __set_vvmcs, hmod, eq_self_iff_true, if_true]
  rcases hw with h | h | h | h
  · simp only [h, VVMCS_WIDTH_16, VVMCS_WIDTH_64, VVMCS_WIDTH_32,
      VVMCS_WIDTH_NATURAL, reduceIte]
    rw [Nat.and_assoc]
    rfl
  · simp only [h, VVMCS_WIDTH_16, VVMCS_WIDTH_64, VVMCS_WIDTH_32,
      VVMCS_WIDTH_NATURAL, reduceIte]
    by_cases hacc : enc_access_type e ≠ 0
    · rw [if_pos hacc, if_pos hacc, if_pos hacc]
      exact high_half_roundtrip (page (vvmcs_offset 1 (enc_type e)
        (enc_index e))) v
    · rw [if_neg hacc, if_neg hacc, if_neg hacc]
      rfl
  · simp only [h, VVMCS_WIDTH_16, VVMCS_WIDTH_64, VVMCS_WIDTH_32,
      VVMCS_WIDTH_NATURAL]
    show v &&& 4294967295 &&& 4294967295 = v &&& 4294967295
    rw [Nat.and_assoc]
    rfl
  · simp only [h, VVMCS_WIDTH_16, VVMCS_WIDTH_64, VVMCS_WIDTH_32,
      VVMCS_WIDTH_NATURAL]
    rfl

/-- Witness for C6: at the 16-bit-width encoding 0x800 (a guest-selector
field), writing 0xAABBCCDD into a zero page and reading back yields
0xCCDD. -/
theorem vvmcs_write_read_roundtrip_witness :
    (0x800 : Nat) < 2 ^ 16 ∧ (0xAABBCCDD : Nat) < 2 ^ 64 ∧
    __get_vvmcs (__set_vvmcs page0 0x800 0xAABBCCDD) 0x800 = 0xCCDD := by
  refine ⟨by norm_num, by norm_num, ?_⟩
  have h := vvmcs_write_read_roundtrip 0x800 0xAABBCCDD page0
    (by norm_num) (by norm_num)
  rw [h]
  rfl

/-- Base-register contribution of a memory-form operand: 0 when the base
register is marked invalid. -/
def decode_base (env : Env) (s : NState) : Nat :=
  if info_base_reg_invalid env.vmx_inst_info ≠ 0 then 0
  else reg_read s (info_base_reg env.vmx_inst_info)

/-- Index-register contribution of a memory-form operand: 0 when the
index register is marked invalid. -/
def decode_index (env : Env) (s : NState) : Nat :=
  if info_index_reg_invalid env.vmx_inst_info ≠ 0 then 0
  else reg_read s (info_index_reg env.vmx_inst_info)

/-- Segment offset of a memory-form operand, in 64-bit arithmetic. -/
def decode_offset (env : Env) (s : NState) : Nat :=
  (decode_base env s + decode_index env s * (1 <<< info_scaling env.vmx_inst_info) +
   env.exit_qualification) % 2 ^ 64

/-- Operand size of a memory-form operand. -/
def decode_size (env : Env) : Nat := 1 <<< (info_addr_size env.vmx_inst_info + 1)

/-- Value delivered by the guest-virtual operand fetch. -/
def decode_fetch (env : Env) : Nat :=
  if decode_size env ≥ 8 then env.operand_mem % 2 ^ 64
  else env.operand_mem % 2 ^ (8 * decode_size env)

/-- C10: for a memory-form operand that passes validation, the decoder
produces the linear address seg.base + (0 or base register) + (0 or index
register times 2^scaling) + displacement, in 64-bit arithmetic, and
length 2^(addr_size + 1). -/
theorem decode_memory_operand_formula (env : Env) (s : NState)
    (want vc : Bool)
    (hg : vmx_inst_check_privilege env s vc = (RC.okay, []))
    (hm : info_memreg env.vmx_inst_info = 0)
    (hseg5 : info_segment env.vmx_inst_info ≤ 5)
    (hlim : ¬((decode_offset env s > (env.seg (info_segment env.vmx_inst_info)).limit ∨
          (decode_offset env s + decode_size env) % 2 ^ 64 >
            (env.seg (info_segment env.vmx_inst_info)).limit) ∧
        (env.long_mode = false ∨ info_segment env.vmx_inst_info = VMX_SREG_GS)))
    (hcopy : want = false ∨ env.copy_from_ok = true) :
    decode_vmx_inst env s want vc =
      (RC.okay,
       { dtype := VMX_INST_MEMREG_TYPE_MEMORY, reg1 := 0,
         mem := ((env.seg (info_segment env.vmx_inst_info)).base +
                 decode_base env s +
                 decode_index env s * 2 ^ info_scaling env.vmx_inst_info +
                 env.exit_qualification) % 2 ^ 64,
         len := 2 ^ (info_addr_size env.vmx_inst_info + 1),
         reg2 := info_reg2 env.vmx_inst_info },
       (if want = true then decode_fetch env else 0), []) := by
  have hcopy2 : ¬(want = true ∧ env.copy_from_ok = false) := by
    rcases hcopy with h | h
    · intro hh
      rw [h] at hh
      exact absurd hh.1 (by simp)
    · intro hh
      rw [h] at hh
      exact absurd hh.2 (by simp)
  unfold decode_vmx_inst
  rw [hg]
  simp only [decode_base, decode_index, decode_offset, decode_size,
    decode_fetch] at hlim ⊢
  rw [if_neg (by simp [hm] : ¬info_memreg env.vmx_inst_info ≠ 0)]
  rw [if_neg (by omega : ¬info_segment env.vmx_inst_info > 5)]
  rw [if_neg hlim]
  rw [if_neg hcopy2]
  simp only [Prod.mk.injEq, vmx_inst_decoded.mk.injEq, eq_self_iff_true,
    true_and, and_true]
  constructor
  · rw [Nat.shiftLeft_eq, one_mul]
    generalize (if info_index_reg_invalid env.vmx_inst_info ≠ 0 then 0
      else reg_read s (info_index_reg env.vmx_inst_info)) *
        2 ^ info_scaling env.vmx_inst_info = t
    omega
  · rw [Nat.shiftLeft_eq, one_mul]

/-- Environment for the concrete decode example: memory-form operand with
base RAX, index RBX, scaling 2, displacement 0x20, DS with base 0x100000,
16-byte address size field set to 2 (8-byte operand). -/
def env_dec : Env :=
  { env0 with vmx_inst_info := 0xD8102, exit_qualification := 0x20,
              seg := fun i => if i = VMX_SREG_DS then
                  { sel := 0, base := 0x100000, limit := 0xffffffff, attr_l := true }
                else seg_ok }

/-- Register file for the decode example: RAX = 0x1000, RBX = 0x10. -/
def s_dec : NState :=
  { s_novvmcs with gpr := fun i => if i = 0 then 0x1000 else if i = 3 then 0x10 else 0 }

/-- Witness for C10: with base RAX=0x1000, index RBX=0x10, scaling 2,
displacement 0x20 and DS base 0x100000 the decoded linear address is
0x101060 and the length is 8. -/
theorem decode_memory_operand_formula_witness :
    (decode_vmx_inst env_dec s_dec false false).2.1.mem = 0x101060 ∧
    (decode_vmx_inst env_dec s_dec false false).2.1.len = 8 := by
  refine ⟨?_, ?_⟩ <;>
    rw [decode_memory_operand_formula env_dec s_dec false false rfl rfl
      (by decide) (by decide) (Or.inl rfl)] <;>
    rfl

/-- L1's CPU-based control word as the code reads it: the u32 value of
the CPU_BASED_VM_EXEC_CONTROL field of the given VVMCS page. -/
def l1_exec (page : Page) : Nat :=
  __get_vvmcs page CPU_BASED_VM_EXEC_CONTROL &&& 0xffffffff

/-- The composite control word before the I/O policy adjustment: L1's
word with the L0-owned feature bits stripped, OR'ed with the host's u32
word. -/
def exec_base (page : Page) (host_cntrl : Nat) : Nat :=
  (l1_exec page &&&
    u32not (CPU_BASED_TPR_SHADOW ||| CPU_BASED_ACTIVATE_MSR_BITMAP |||
            CPU_BASED_ACTIVATE_SECONDARY_CONTROLS |||
            CPU_BASED_ACTIVATE_IO_BITMAP ||| CPU_BASED_UNCOND_IO_EXITING)) |||
  (host_cntrl &&& 0xffffffff)

/-- Helper: reading the shadow exec control through a present mapping. -/
theorem n2_exec_control_eq (s : NState) (page : Page)
    (hpg : s.nv_vvmcx = some page) : __n2_exec_control s = some (l1_exec page) := by
  unfold __n2_exec_control l1_exec
  rw [hpg]
  rfl

/-- Helper: the port-intercept extraction through a present first bitmap
mapping. -/
theorem shadow_io_bitmap_eq (s : NState) (bm : Page)
    (hbm : s.iobitmap0 = some bm) :
    _shadow_io_bitmap s =
      some ((if bm 0x10 &&& 0x1 ≠ 0 then 1 else 0),
            (if bm 0x1d &&& 0x20 ≠ 0 then 1 else 0)) := by
  unfold _shadow_io_bitmap
  rw [hbm]
  rfl

/-- Helper: a value OR'ed into a mask then masked by it is absorbed. -/
theorem nat_and_lor_self (x u : Nat) : (x &&& u) ||| u = u := by
  apply Nat.eq_of_testBit_eq
  intro i
  simp only [Nat.testBit_or, Nat.testBit_and]
  cases x.testBit i <;> cases u.testBit i <;> rfl

/-- C9: the produced hardware CPU-based control word equals L1's word
with TPR_SHADOW, ACTIVATE_MSR_BITMAP, ACTIVATE_SECONDARY_CONTROLS,
ACTIVATE_IO_BITMAP and UNCOND_IO_EXITING stripped, OR host_cntrl,
adjusted by the I/O policy: when L1's (ACTIVATE_IO_BITMAP |
UNCOND_IO_EXITING) bits equal exactly UNCOND_IO_EXITING the result has
UNCOND_IO_EXITING set and ACTIVATE_IO_BITMAP clear and the bitmap fields
are untouched; when those bits are 0 the host default bitmap is
programmed; otherwise the shadow bitmap derived from L1's first bitmap
is programmed. -/
theorem update_exec_control_policy (s : NState) (page : Page) (host_cntrl : Nat)
    (hpg : s.nv_vvmcx = some page) :
    (l1_exec page &&& (CPU_BASED_ACTIVATE_IO_BITMAP ||| CPU_BASED_UNCOND_IO_EXITING) =
        CPU_BASED_UNCOND_IO_EXITING →
      nvmx_update_exec_control s host_cntrl =
        some ((exec_base page host_cntrl ||| CPU_BASED_UNCOND_IO_EXITING) &&&
                u32not CPU_BASED_ACTIVATE_IO_BITMAP, IOSel.keep) ∧
      ((exec_base page host_cntrl ||| CPU_BASED_UNCOND_IO_EXITING) &&&
          u32not CPU_BASED_ACTIVATE_IO_BITMAP) &&& CPU_BASED_UNCOND_IO_EXITING =
        CPU_BASED_UNCOND_IO_EXITING ∧
      ((exec_base page host_cntrl ||| CPU_BASED_UNCOND_IO_EXITING) &&&
          u32not CPU_BASED_ACTIVATE_IO_BITMAP) &&& CPU_BASED_ACTIVATE_IO_BITMAP = 0) ∧
    (l1_exec page &&& (CPU_BASED_ACTIVATE_IO_BITMAP ||| CPU_BASED_UNCOND_IO_EXITING) = 0 →
      nvmx_update_exec_control s host_cntrl =
        some (exec_base page host_cntrl, IOSel.host_default)) ∧
    (∀ bm, s.iobitmap0 = some bm →
      l1_exec page &&& (CPU_BASED_ACTIVATE_IO_BITMAP ||| CPU_BASED_UNCOND_IO_EXITING) ≠
        CPU_BASED_UNCOND_IO_EXITING →
      l1_exec page &&& (CPU_BASED_ACTIVATE_IO_BITMAP ||| CPU_BASED_UNCOND_IO_EXITING) ≠ 0 →
      nvmx_update_exec_control s host_cntrl =
        some (exec_base page host_cntrl,
              IOSel.shadow_bm (if bm 0x10 &&& 0x1 ≠ 0 then 1 else 0)
                              (if bm 0x1d &&& 0x20 ≠ 0 then 1 else 0))) := by
  refine ⟨?_, ?_, ?_⟩
  · intro hcond
    have hpio : (CPU_BASED_ACTIVATE_IO_BITMAP ||| CPU_BASED_UNCOND_IO_EXITING) &&&
        l1_exec page = CPU_BASED_UNCOND_IO_EXITING := by
      rw [Nat.and_comm]
      exact hcond
    refine ⟨?_, ?_, ?_⟩
    · simp only [nvmx_update_exec_control, n2_exec_control_eq s page hpg, hpio]
      rw [if_true]
      rfl
    · rw [Nat.and_assoc]
      show (exec_base page host_cntrl ||| CPU_BASED_UNCOND_IO_EXITING) &&&
          CPU_BASED_UNCOND_IO_EXITING = CPU_BASED_UNCOND_IO_EXITING
      rw [Nat.and_distrib_right, Nat.and_self]
      exact nat_and_lor_self _ _
    · rw [Nat.and_assoc]
      show (exec_base page host_cntrl ||| CPU_BASED_UNCOND_IO_EXITING) &&& 0 = 0
      exact Nat.and_zero _
  · intro hcond
    have hpio : (CPU_BASED_ACTIVATE_IO_BITMAP ||| CPU_BASED_UNCOND_IO_EXITING) &&&
        l1_exec page = 0 := by
      rw [Nat.and_comm]
      exact hcond
    have hne : ¬((CPU_BASED_ACTIVATE_IO_BITMAP ||| CPU_BASED_UNCOND_IO_EXITING) &&&
        l1_exec page = CPU_BASED_UNCOND_IO_EXITING) := by
      rw [hpio]
      decide
    simp only [nvmx_update_exec_control, n2_exec_control_eq s page hpg]
    rw [if_neg hne, if_pos hpio]
    rfl
  · intro bm hbm h1 h2
    have hne1 : ¬((CPU_BASED_ACTIVATE_IO_BITMAP ||| CPU_BASED_UNCOND_IO_EXITING) &&&
        l1_exec page = CPU_BASED_UNCOND_IO_EXITING) := by
      rw [Nat.and_comm]
      exact h1
    have hne0 : ¬((CPU_BASED_ACTIVATE_IO_BITMAP ||| CPU_BASED_UNCOND_IO_EXITING) &&&
        l1_exec page = 0) := by
      rw [Nat.and_comm]
      exact h2
    simp only [nvmx_update_exec_control, n2_exec_control_eq s page hpg]
    rw [if_neg hne1, if_neg hne0, shadow_io_bitmap_eq s bm hbm]
    rfl

/-- VVMCS page whose CPU-based controls field requests unconditional I/O
exiting only. -/
def page_u : Page :=
  __set_vvmcs page0 CPU_BASED_VM_EXEC_CONTROL CPU_BASED_UNCOND_IO_EXITING

/-- Loaded state whose VVMCS requests unconditional I/O exiting. -/
def s_u : NState := { s_loaded with nv_vvmcx := some page_u }

/-- Witness for C9: with l1 = UNCOND_IO_EXITING the policy keeps the
bitmap fields and forces the UNCOND bit with ACTIVATE clear; with l1 = 0
the host default bitmap is selected; with l1 = ACTIVATE_IO_BITMAP and an
all-zero guest bitmap the derived shadow bitmap (no intercepts) is
selected. -/
theorem update_exec_control_policy_witness :
    nvmx_update_exec_control s_u 0 =
      some ((exec_base page_u 0 ||| CPU_BASED_UNCOND_IO_EXITING) &&&
              u32not CPU_BASED_ACTIVATE_IO_BITMAP, IOSel.keep) ∧
    nvmx_update_exec_control s_loaded 0 =
      some (exec_base page0 0, IOSel.host_default) ∧
    nvmx_update_exec_control s_c4 0 =
      some (exec_base page_ctl 0, IOSel.shadow_bm 0 0) := by
  refine ⟨((update_exec_control_policy s_u page_u 0 rfl).1 (by decide)).1,
          (update_exec_control_policy s_loaded page0 0 rfl).2.1 (by decide), ?_⟩
  have h := (update_exec_control_policy s_c4 page_ctl 0 rfl).2.2 page0 rfl
    (by decide) (by decide)
  rw [h]
  rfl

/-- C5 amended: in every state, whenever its gate flavour would reject,
VMXON (and likewise VMXOFF, VMPTRLD, VMPTRST, VMCLEAR, VMREAD and
VMWRITE for the non-VMXON flavour) runs the privilege gate before any
other architectural logic: the handler returns EXCEPTION with the state
unchanged and the gate's fault injection as the only event (no VVMCS
access, no status write), with no assumption on the VVMCS mapping.
VMLAUNCH and VMRESUME instead access the VVMCS mapping before the gate:
with no mapping they dereference the absent mapping before the gate can
run; with one mapped they read LAUNCH_STATE first, and when that read
routes them to the VMfailValid branch they write that status and return
EXCEPTION without the gate ever running (no fault injected); otherwise
the rejecting gate injects the fault and nothing further happens. -/
theorem privilege_gate_ordering (env : Env) (s : NState) :
    (∀ evst, vmx_inst_check_privilege env s true = (RC.exception, evst) →
       nvmx_handle_vmxon env s = some (RC.exception, s, evst)) ∧
    (∀ evs, vmx_inst_check_privilege env s false = (RC.exception, evs) →
       nvmx_handle_vmxoff env s = some (RC.exception, s, evs) ∧
       nvmx_handle_vmptrld env s = some (RC.exception, s, evs) ∧
       nvmx_handle_vmptrst env s = some (RC.exception, s, evs) ∧
       nvmx_handle_vmclear env s = some (RC.exception, s, evs) ∧
       nvmx_handle_vmread env s = some (RC.exception, s, evs) ∧
       nvmx_handle_vmwrite env s = some (RC.exception, s, evs)) ∧
    (s.nv_vvmcx = none →
       nvmx_handle_vmresume env s = none ∧ nvmx_handle_vmlaunch env s = none) ∧
    (∀ page evs, s.nv_vvmcx = some page →
       vmx_inst_check_privilege env s false = (RC.exception, evs) →
       nvmx_handle_vmresume env s =
         (if __get_vvmcs page NVMX_LAUNCH_STATE = 0 then
            some (RC.exception,
                  { s with eflags := vmreturn_eflags s.eflags VmxRes.vmfail_valid },
                  [Event.vvmcs_read NVMX_LAUNCH_STATE,
                   Event.eflags_status VmxRes.vmfail_valid])
          else some (RC.exception, s, Event.vvmcs_read NVMX_LAUNCH_STATE :: evs)) ∧
       nvmx_handle_vmlaunch env s =
         (if __get_vvmcs page NVMX_LAUNCH_STATE = 0 then
            some (RC.exception, s, Event.vvmcs_read NVMX_LAUNCH_STATE :: evs)
          else
            some (RC.exception,
                  { s with eflags := vmreturn_eflags s.eflags VmxRes.vmfail_valid },
                  [Event.vvmcs_read NVMX_LAUNCH_STATE,
                   Event.eflags_status VmxRes.vmfail_valid]))) := by
  refine ⟨?_, ?_, ?_, ?_⟩
  · intro evst hgt
    simp only [nvmx_handle_vmxon, decode_vmx_inst, hgt]
  · intro evs hg
    refine ⟨?_, ?_, ?_, ?_, ?_, ?_⟩
    · simp only [nvmx_handle_vmxoff, hg]
    · simp only [nvmx_handle_vmptrld, decode_vmx_inst, hg]
    · simp only [nvmx_handle_vmptrst, decode_vmx_inst, hg]
    · simp only [nvmx_handle_vmclear, decode_vmx_inst, hg]
    · simp only [nvmx_handle_vmread, decode_vmx_inst, hg]
    · simp only [nvmx_handle_vmwrite, decode_vmx_inst, hg]
  · intro hnone
    constructor
    · simp only [nvmx_handle_vmresume, hnone]
      rfl
    · simp only [nvmx_handle_vmlaunch, hnone]
      rfl
  · intro page evs hpg hg
    have hread : deref_vvmcs_read s.nv_vvmcx NVMX_LAUNCH_STATE =
        some (__get_vvmcs page NVMX_LAUNCH_STATE) := by
      rw [hpg]
      rfl
    constructor
    · by_cases hls0 : __get_vvmcs page NVMX_LAUNCH_STATE = 0
      · rw [if_pos hls0]
        simp only [nvmx_handle_vmresume, hread, hls0]
        rfl
      · rw [if_neg hls0]
        simp only [nvmx_handle_vmresume, hread]
        rw [if_neg hls0]
        simp only [nvmx_vmresume, hg]
        rfl
    · by_cases hls0 : __get_vvmcs page NVMX_LAUNCH_STATE = 0
      · rw [if_pos hls0]
        simp only [nvmx_handle_vmlaunch, hread, hls0]
        simp only [nvmx_vmresume, hg]
        rfl
      · rw [if_neg hls0]
        simp only [nvmx_handle_vmlaunch, hread]
        rw [if_pos hls0]
        rfl

/-- Witness for C5: VMXON rejects with #GP at CPL 3; VMXOFF rejects with
#UD at the plain VMXON-inactive state (CPL 0, protected mode, VMXE set,
vmxon_region_pa = 0) where the VMXON-flavour gate passes; VMRESUME with
no VVMCS mapped dereferences the absent mapping; VMLAUNCH at CPL 3 with
a loaded all-zero VVMCS reads LAUNCH_STATE and then lets the gate
reject. -/
theorem privilege_gate_ordering_witness :
    nvmx_handle_vmxon env_cpl3 s_loaded =
      some (RC.exception, s_loaded, [Event.inject TRAP_gp_fault 0]) ∧
    nvmx_handle_vmxoff env0 { s_novvmcs with vmxon_region_pa := 0 } =
      some (RC.exception, { s_novvmcs with vmxon_region_pa := 0 },
            [Event.inject TRAP_invalid_op 0]) ∧
    nvmx_handle_vmresume env_cpl3 s_novvmcs = none ∧
    nvmx_handle_vmlaunch env_cpl3 s_loaded =
      some (RC.exception, s_loaded,
            Event.vvmcs_read NVMX_LAUNCH_STATE :: [Event.inject TRAP_gp_fault 0]) := by
  refine ⟨?_, ?_, ?_, ?_⟩
  · exact (privilege_gate_ordering env_cpl3 s_loaded).1
      [Event.inject TRAP_gp_fault 0] rfl
  · exact ((privilege_gate_ordering env0 { s_novvmcs with vmxon_region_pa := 0 }).2.1
      [Event.inject TRAP_invalid_op 0] rfl).1
  · exact ((privilege_gate_ordering env_cpl3 s_novvmcs).2.2.1 rfl).1
  · have h := ((privilege_gate_ordering env_cpl3 s_loaded).2.2.2 page0
      [Event.inject TRAP_gp_fault 0] rfl rfl).2
    rw [if_pos (by decide : __get_vvmcs page0 NVMX_LAUNCH_STATE = 0)] at h
    exact h

/-- Helper: vmreturn only touches the six status bits, so a clear
EFLAGS.VM stays clear. -/
theorem vmreturn_eflags_vm_clear (e : Nat) (r : VmxRes)
    (h : e &&& X86_EFLAGS_VM = 0) :
    vmreturn_eflags e r &&& X86_EFLAGS_VM = 0 := by
  unfold vmreturn_eflags
  cases r
  · rw [Nat.and_assoc]
    show e &&& X86_EFLAGS_VM = 0
    exact h
  · rw [Nat.and_distrib_right, Nat.and_assoc]
    show (e &&& X86_EFLAGS_VM) ||| 0 = 0
    rw [Nat.or_zero]
    exact h
  · rw [Nat.and_distrib_right, Nat.and_assoc]
    show (e &&& X86_EFLAGS_VM) ||| 0 = 0
    rw [Nat.or_zero]
    exact h

/-- Helper: the VMfailValid status sets ZF. -/
theorem vmreturn_eflags_zf_set (e : Nat) :
    vmreturn_eflags e VmxRes.vmfail_valid &&& X86_EFLAGS_ZF = X86_EFLAGS_ZF := by
  unfold vmreturn_eflags
  rw [Nat.and_distrib_right, Nat.and_assoc]
  show (e &&& 0) ||| X86_EFLAGS_ZF = X86_EFLAGS_ZF
  rw [Nat.and_zero, Nat.zero_or]

/-- Helper: setting LAUNCH_STATE to 1 and reading it back yields 1. -/
theorem get_set_launch_state (page : Page) :
    __get_vvmcs (__set_vvmcs page NVMX_LAUNCH_STATE 1) NVMX_LAUNCH_STATE = 1 := by
  have h1 : __set_vvmcs page NVMX_LAUNCH_STATE 1 0x60 = 1 := rfl
  show __set_vvmcs page NVMX_LAUNCH_STATE 1 0x60 &&& 0xffff = 1
  rw [h1]
  rfl

/-- C3 amended: starting from a freshly loaded VVMCS (LAUNCH_STATE 0)
with the gate satisfied and both I/O bitmaps mapped: VMRESUME writes
VMfailValid (ZF set) and returns EXCEPTION; VMLAUNCH then succeeds,
setting vm_entry_pending and LAUNCH_STATE := 1 and returning OKAY, but
writes no status to EFLAGS (they keep their previous value); a second
VMLAUNCH writes VMfailValid and returns EXCEPTION; VMRESUME then
succeeds, setting vm_entry_pending, again writing no status.  The
pending flag is modelled as consumed by the outer scheduler between
steps. -/
theorem vmlaunch_vmresume_state_machine (env : Env) (page : Page)
    (p pa e0 : Nat) (bm0 bm1 : Page) (f : Nat → Nat)
    (hpa : pa ≠ 0) (hp : p ≠ VMCX_EADDR)
    (hls : __get_vvmcs page NVMX_LAUNCH_STATE = 0)
    (hvm : e0 &&& X86_EFLAGS_VM = 0)
    (hlong : ¬(env.long_mode = true ∧ (env.seg VMX_SREG_CS).attr_l = false))
    (hcs : (env.seg VMX_SREG_CS).sel &&& 3 = 0) :
    nvmx_handle_vmresume env ⟨pa, some page, p, some bm0, some bm1, false, e0, f⟩ =
      some (RC.exception,
            ⟨pa, some page, p, some bm0, some bm1, false,
             vmreturn_eflags e0 VmxRes.vmfail_valid, f⟩,
            [Event.vvmcs_read NVMX_LAUNCH_STATE,
             Event.eflags_status VmxRes.vmfail_valid]) ∧
    vmreturn_eflags e0 VmxRes.vmfail_valid &&& X86_EFLAGS_ZF = X86_EFLAGS_ZF ∧
    nvmx_handle_vmlaunch env
        ⟨pa, some page, p, some bm0, some bm1, false,
         vmreturn_eflags e0 VmxRes.vmfail_valid, f⟩ =
      some (RC.okay,
            ⟨pa, some (__set_vvmcs page NVMX_LAUNCH_STATE 1), p, some bm0,
             some bm1, true, vmreturn_eflags e0 VmxRes.vmfail_valid, f⟩,
            [Event.vvmcs_read NVMX_LAUNCH_STATE,
             Event.vvmcs_write NVMX_LAUNCH_STATE 1]) ∧
    nvmx_handle_vmlaunch env
        ⟨pa, some (__set_vvmcs page NVMX_LAUNCH_STATE 1), p, some bm0, some bm1,
         false, vmreturn_eflags e0 VmxRes.vmfail_valid, f⟩ =
      some (RC.exception,
            ⟨pa, some (__set_vvmcs page NVMX_LAUNCH_STATE 1), p, some bm0,
             some bm1, false,
             vmreturn_eflags (vmreturn_eflags e0 VmxRes.vmfail_valid)
               VmxRes.vmfail_valid, f⟩,
            [Event.vvmcs_read NVMX_LAUNCH_STATE,
             Event.eflags_status VmxRes.vmfail_valid]) ∧
    vmreturn_eflags (vmreturn_eflags e0 VmxRes.vmfail_valid)
        VmxRes.vmfail_valid &&& X86_EFLAGS_ZF = X86_EFLAGS_ZF ∧
    nvmx_handle_vmresume env
        ⟨pa, some (__set_vvmcs page NVMX_LAUNCH_STATE 1), p, some bm0, some bm1,
         false, vmreturn_eflags (vmreturn_eflags e0 VmxRes.vmfail_valid)
           VmxRes.vmfail_valid, f⟩ =
      some (RC.okay,
            ⟨pa, some (__set_vvmcs page NVMX_LAUNCH_STATE 1), p, some bm0,
             some bm1, true,
             vmreturn_eflags (vmreturn_eflags e0 VmxRes.vmfail_valid)
               VmxRes.vmfail_valid, f⟩,
            [Event.vvmcs_read NVMX_LAUNCH_STATE]) := by
  have hread0 : deref_vvmcs_read (some page) NVMX_LAUNCH_STATE = some 0 := by
    show some (__get_vvmcs page NVMX_LAUNCH_STATE) = some 0
    rw [hls]
  have hread1 : deref_vvmcs_read (some (__set_vvmcs page NVMX_LAUNCH_STATE 1))
      NVMX_LAUNCH_STATE = some 1 := by
    show some (__get_vvmcs (__set_vvmcs page NVMX_LAUNCH_STATE 1)
      NVMX_LAUNCH_STATE) = some 1
    rw [get_set_launch_state]
  have hgate1 : vmx_inst_check_privilege env
      ⟨pa, some page, p, some bm0, some bm1, false,
       vmreturn_eflags e0 VmxRes.vmfail_valid, f⟩ false = (RC.okay, []) :=
    check_privilege_ok env _ hpa
      (vmreturn_eflags_vm_clear e0 VmxRes.vmfail_valid hvm) hlong hcs
  have hgate3 : vmx_inst_check_privilege env
      ⟨pa, some (__set_vvmcs page NVMX_LAUNCH_STATE 1), p, some bm0, some bm1,
       false, vmreturn_eflags (vmreturn_eflags e0 VmxRes.vmfail_valid)
         VmxRes.vmfail_valid, f⟩ false = (RC.okay, []) :=
    check_privilege_ok env _ hpa
      (vmreturn_eflags_vm_clear (vmreturn_eflags e0 VmxRes.vmfail_valid)
        VmxRes.vmfail_valid
        (vmreturn_eflags_vm_clear e0 VmxRes.vmfail_valid hvm)) hlong hcs
  refine ⟨?_, vmreturn_eflags_zf_set e0, ?_, ?_, vmreturn_eflags_zf_set _, ?_⟩
  · simp only [nvmx_handle_vmresume, hread0]
    rfl
  · simp only [nvmx_handle_vmlaunch, hread0, nvmx_vmresume, hgate1]
    rw [if_pos hp]
    rfl
  · simp only [nvmx_handle_vmlaunch, hread1]
    rfl
  · simp only [nvmx_handle_vmresume, hread1, nvmx_vmresume, hgate3]
    rw [if_pos hp]
    rfl

/-- Witness for C3 at a concrete loaded state: after the failing VMRESUME
set ZF, the succeeding VMLAUNCH pends the entry and sets LAUNCH_STATE
without touching EFLAGS. -/
theorem vmlaunch_vmresume_state_machine_witness :
    nvmx_handle_vmlaunch env0
        ⟨0x1000, some page0, 0x2000, some page0, some page0, false,
         vmreturn_eflags 0x2 VmxRes.vmfail_valid, fun _ => 0⟩ =
      some (RC.okay,
            ⟨0x1000, some (__set_vvmcs page0 NVMX_LAUNCH_STATE 1), 0x2000,
             some page0, some page0, true,
             vmreturn_eflags 0x2 VmxRes.vmfail_valid, fun _ => 0⟩,
            [Event.vvmcs_read NVMX_LAUNCH_STATE,
             Event.vvmcs_write NVMX_LAUNCH_STATE 1]) :=
  (vmlaunch_vmresume_state_machine env0 page0 0x2000 0x1000 0x2 page0 page0
    (fun _ => 0) (by decide) (by decide) (by decide) (by decide) (by decide)
    (by decide)).2.2.1

/-- C8 amended: VMXON enforces no alignment on the decoded VMXON-region
GPA: whatever GPA the operand decode produces, aligned or not, is
recorded as vmxon_region_pa and the handler completes with VMsucceed. -/
theorem vmxon_records_any_gpa (env : Env) (s : NState)
    (dec : vmx_inst_decoded) (gpa : Nat) (evs : List Event)
    (hd : decode_vmx_inst env s true true = (RC.okay, dec, gpa, evs)) :
    nvmx_handle_vmxon env s =
      some (RC.okay,
            { s with vmxon_region_pa := gpa,
                     eflags := vmreturn_eflags s.eflags VmxRes.vmsucceed },
            evs ++ [Event.eflags_status VmxRes.vmsucceed]) := by
  unfold nvmx_handle_vmxon
  rw [hd]
  rfl

/-- Witness for C8 amended: the unaligned GPA 0x12345001 decoded from RAX
is recorded verbatim and the handler reports VMsucceed. -/
theorem vmxon_records_any_gpa_witness :
    nvmx_handle_vmxon env0 s_unaligned =
      some (RC.okay,
            { s_unaligned with
                vmxon_region_pa := 0x12345001,
                eflags := vmreturn_eflags s_unaligned.eflags VmxRes.vmsucceed },
            [] ++ [Event.eflags_status VmxRes.vmsucceed]) :=
  vmxon_records_any_gpa env0 s_unaligned
    { dtype := VMX_INST_MEMREG_TYPE_REG, reg1 := 0, mem := 0, len := 0, reg2 := 0 }
    0x12345001 [] rfl

end VVMX
